import Mathlib

/-!
Shallow embedding of `src/index.js` of the serverless-plugin-external-sns-events
repository: a deployment-lifecycle plugin that reconciles AWS Lambda function
subscriptions against externally defined SNS topics.

Modelling conventions:
* JS `undefined`/`null` string values are modelled as `Option String` (`none`);
  JS string concatenation coerces `undefined` to the text `"undefined"`, which
  `jsStr` reproduces.
* JS truthiness on strings (`undefined`, `null` and `""` are falsy) is `jsFalsyStr`.
* The asynchronous remote calls, log lines and the fixed delay performed by an
  action are recorded as a trace (`List Action`); the responses the remote API
  would give are supplied up front in an environment record (`Env`).
* A thrown JS `TypeError` (calling a method on `undefined`) is modelled as
  `Except.error`.
* `String.toLower` / `splitOn` from the library do not reduce well in the
  kernel, so character-level equivalents (`strLower`, `splitColon`) are defined
  by structural recursion; `Char.toLower` matches JS `toLowerCase` on the ASCII
  data appearing in ARNs.
-/

namespace ExternalSNS

/-- JS string concatenation of a possibly-`undefined` value: `undefined`
stringifies to `"undefined"`. -/
def jsStr : Option String → String
  | some s => s
  | none => "undefined"

/-- JS falsiness for a possibly-`undefined` string: `undefined`, `null` and
the empty string are falsy. -/
def jsFalsyStr : Option String → Bool
  | none => true
  | some s => s == ""

/-- JS `a || b` for a possibly-`undefined` string `a` with a string default. -/
def jsOrStr (o : Option String) (d : String) : String :=
  if jsFalsyStr o then d else jsStr o

/-- JS `a || null` for a possibly-`undefined` string: collapses falsy values
(including `""`) to `null`. -/
def jsOrNull (o : Option String) : Option String :=
  if jsFalsyStr o then none else o

/-- `p` is a prefix of `l` (character lists). -/
def isPrefixList : List Char → List Char → Bool
  | [], _ => true
  | _ :: _, [] => false
  | a :: as, b :: bs => a == b && isPrefixList as bs

/-- `pat` occurs as a contiguous run inside `l` (character lists). -/
def isInfixList (pat : List Char) : List Char → Bool
  | [] => isPrefixList pat []
  | c :: rest => isPrefixList pat (c :: rest) || isInfixList pat rest

/-- JS `s.toLowerCase()` (character-wise; ASCII-faithful). -/
def strLower (s : String) : String := String.mk (s.data.map Char.toLower)

/-- JS `s.indexOf(pat) !== -1`: `pat` is a substring of `s`. -/
def strContains (s pat : String) : Bool := isInfixList pat.data s.data

/-- `sub.SubscriptionArn.toLowerCase().indexOf('pending') !== -1`
(src/index.js:204). -/
def isPendingArn (arn : String) : Bool := strContains (strLower arn) "pending"

/-- `response.SubscriptionArn.toLowerCase().indexOf('pending confirmation') !== -1`
(src/index.js:132). -/
def isPendingConfirmationArn (arn : String) : Bool :=
  strContains (strLower arn) "pending confirmation"

/-- JS `s.split(sep)` for a one-character separator, on character lists:
accumulates the current field and emits it at each separator. -/
def splitFields (sep : Char) : List Char → List Char → List (List Char)
  | acc, [] => [acc.reverse]
  | acc, c :: rest =>
    if c == sep then acc.reverse :: splitFields sep [] rest
    else splitFields sep (c :: acc) rest

/-- JS `fnArn.split(':')` (src/index.js:187-188). -/
def splitColon (s : String) : List String :=
  (splitFields ':' [] s.data).map String.mk

/-- One entry of a `listSubscriptionsByTopic` response, with the three fields
`_getSubscriptionInfo` reads. -/
structure Subscription where
  SubscriptionArn : String
  Protocol : String
  Endpoint : String
deriving Repr, DecidableEq

/-- The record `_getSubscriptionInfo` resolves to (src/index.js:211-216);
`SubscriptionArn`/`Endpoint` are `undefined` when no subscription matched. -/
structure SubscriptionInfo where
  FunctionArn : String
  TopicArn : String
  SubscriptionArn : Option String
  Endpoint : Option String
deriving Repr, DecidableEq

/-- `'arn:aws:sns:' + fnArn.split(':')[3] + ':' + fnArn.split(':')[4] + ':' + topicName`
(src/index.js:187-189); out-of-range indexing and an `undefined` topic name
concatenate as `"undefined"`, as in JS. -/
def composeTopicArn (fnArn : String) (topicName : Option String) : String :=
  "arn:aws:sns:" ++ jsStr (splitColon fnArn)[3]? ++ ":" ++
    jsStr (splitColon fnArn)[4]? ++ ":" ++ jsStr topicName

/-- The `_.find` predicate of `_getSubscriptionInfo` (src/index.js:203-209).
The JS condition is `sub.Protocol === protocol || 'lambda' && (sub.Endpoint ===
httpEndpoint || sub.Endpoint === fnArn)`; `&&` binds tighter than `||` and the
string literal `'lambda'` is truthy, so the condition evaluates as
protocol-match OR endpoint-match. Subscriptions whose ARN contains `pending`
(case-insensitively) are rejected first. `protocol` and `httpEndpoint` may be
`undefined` (strict equality with a string is then false). -/
def subMatches (protocol httpEndpoint : Option String) (fnArn : String)
    (sub : Subscription) : Bool :=
  if isPendingArn sub.SubscriptionArn then false
  else (some sub.Protocol == protocol) ||
    ((some sub.Endpoint == httpEndpoint) || (sub.Endpoint == fnArn))

/-- Modelled from the spec's words (§4.3 step 5), for comparison with the
source's `subMatches`: the protocol must match the requested protocol AND the
endpoint must match the explicit endpoint or the function ARN, with pending
subscriptions excluded. -/
def specSubMatches (protocol httpEndpoint : Option String) (fnArn : String)
    (sub : Subscription) : Bool :=
  if isPendingArn sub.SubscriptionArn then false
  else (some sub.Protocol == protocol) &&
    ((some sub.Endpoint == httpEndpoint) || (sub.Endpoint == fnArn))

/-- Pure part of `_getSubscriptionInfo` (src/index.js:178-218), taking the two
remote responses as inputs: the function ARN from `getFunction` and the
subscription list from `listSubscriptionsByTopic`. `|| {}` on a failed find
makes both optional fields `undefined`. -/
def getSubscriptionInfo (fnArn : String) (topicName : Option String)
    (protocol httpEndpoint : Option String) (subs : List Subscription) :
    SubscriptionInfo :=
  let existing := subs.find? (subMatches protocol httpEndpoint fnArn)
  { FunctionArn := fnArn
    TopicArn := composeTopicArn fnArn topicName
    SubscriptionArn := existing.map Subscription.SubscriptionArn
    Endpoint := existing.map Subscription.Endpoint }

/-- `_normalize` (src/index.js:251-257): `undefined` on an empty or `undefined`
input (`_.isEmpty`), otherwise the input with its first character upper-cased
(`s[0].toUpperCase() + s.substr(1)`; ASCII-faithful). -/
def normalize : Option String → Option String
  | none => none
  | some s =>
    match s.data with
    | [] => none
    | c :: cs => some (String.mk (Char.toUpper c :: cs))

/-- JS `arn.replace(/[^0-9A-Za-z]/g, '')`: keep only ASCII letters and digits. -/
def stripNonAlnum (s : String) : String := String.mk (s.data.filter Char.isAlphanum)

/-- `_normalizeTopicName` (src/index.js:259-261). Calling `.replace` on an
`undefined` argument throws a `TypeError` in JS, modelled as `Except.error`. -/
def normalizeTopicName : Option String → Except String (Option String)
  | none => Except.error "TypeError: Cannot read properties of undefined"
  | some s => Except.ok (normalize (some (stripNonAlnum s)))

/-- The `externalSNS` value of an event: either a bare topic-name string or an
object with an optional `topic` field and optional `Protocol` /
`DeliveryPolicy` fields (src/index.js:57-59, 82-95, 153-155). -/
inductive TopicBinding
  | str (topic : String)
  | obj (topic : Option String) (protocolField : Option String)
      (deliveryPolicyField : Option String)
deriving Repr, DecidableEq

/-- `if (_.isObject(topicName)) { topicName = topicName.topic; }`: the topic
name after the object unwrapping; `undefined` when the object lacks the field. -/
def TopicBinding.topicName : TopicBinding → Option String
  | .str t => some t
  | .obj t _ _ => t

/-- `topicName[DELIVERY_POLICY_ATTR]` when `_.has(topicName, 'DeliveryPolicy')`
(src/index.js:83-88); the policy value is kept as its serialized JS form. -/
def TopicBinding.deliveryPolicy : TopicBinding → Option String
  | .str _ => none
  | .obj _ _ dp => dp

/-- `protocol = 'lambda'; if (topicName.Protocol) { protocol = topicName.Protocol; }`
(src/index.js:80, 90-92): the default survives a falsy `Protocol` field. -/
def TopicBinding.protocolOrDefault : TopicBinding → String
  | .str _ => "lambda"
  | .obj _ p _ => jsOrStr p "lambda"

/-- A CloudFormation template value, as far as the permission resource needs:
string literals, `Ref`, `Fn::GetAtt` and a colon-separated `Fn::Join`. A JS
`undefined` slipped into the `Fn::Join` list is kept distinct. -/
inductive CfnVal
  | lit (s : String)
  | ref (s : String)
  | getAtt (logicalName attrName : String)
  | joinColon (parts : List CfnVal)
  | jsUndefined
deriving Repr

/-- The `AWS::Lambda::Permission` resource built by `addEventPermission`
(src/index.js:64-72). `resourceType` models the JS key `Type`. -/
structure Permission where
  resourceType : String
  FunctionName : CfnVal
  Action : String
  Principal : String
  SourceArn : CfnVal
deriving Repr

/-- `addEventPermission` (src/index.js:51-75): unwraps the binding, normalizes
the names, and produces the template key `permRef` together with the permission
resource. Propagates the `TypeError` that `_normalizeTopicName` throws on an
`undefined` topic name. -/
def addEventPermission (fnName : String) (binding : TopicBinding) :
    Except String (String × Permission) := do
  let topicName := binding.topicName
  let normalizedFnName := normalize (some fnName)
  let fnRef := jsStr normalizedFnName ++ "LambdaFunction"
  let normalizedTopicName ← normalizeTopicName topicName
  let permRef := jsStr normalizedFnName ++ "LambdaPermission" ++ jsStr normalizedTopicName
  Except.ok (permRef,
    { resourceType := "AWS::Lambda::Permission"
      FunctionName := CfnVal.getAtt fnRef "Arn"
      Action := "lambda:InvokeFunction"
      Principal := "sns.amazonaws.com"
      SourceArn := CfnVal.joinColon
        [CfnVal.lit "arn:aws:sns", CfnVal.ref "AWS::Region",
         CfnVal.ref "AWS::AccountId",
         match topicName with
         | some t => CfnVal.lit t
         | none => CfnVal.jsUndefined] })

/-- `compiledCloudFormationTemplate.Resources[permRef] = permission`
(src/index.js:74): keyed assignment into the template's resource map. -/
def insertResource (resources : String → Option Permission) (key : String)
    (p : Permission) : String → Option Permission :=
  fun k => if k = key then some p else resources k

/-- One observable step of an action: a log line, a remote API call, or the
fixed pending-confirmation delay. Endpoint resolution (`_getFunctionEndpoint`,
read-only `getRestApis`) is supplied by the environment and not traced. -/
inductive Action
  | log (msg : String)
  | getFunction (fnName : String)
  | listSubscriptionsByTopic (topicArn : String)
  | subscribe (topicArn protocol endpoint : String)
  | unsubscribe (subscriptionArn : String)
  | setSubscriptionAttributes (subscriptionArn attrName attrValue : String)
  | delay (ms : Nat)
deriving Repr, DecidableEq

/-- A remote call that mutates cloud state (subscribe / unsubscribe /
setSubscriptionAttributes), as opposed to reads, logs and delays. -/
def Action.isMutating : Action → Bool
  | .subscribe _ _ _ => true
  | .unsubscribe _ => true
  | .setSubscriptionAttributes _ _ _ => true
  | _ => false

/-- Recognizer for the SNS `subscribe` call. -/
def Action.isSubscribeCall : Action → Bool
  | .subscribe _ _ _ => true
  | _ => false

/-- Number of SNS `subscribe` calls in a trace. -/
def countSubscribeCalls (l : List Action) : Nat := l.countP Action.isSubscribeCall

/-- The attribute record built at src/index.js:84-87:
`{ name: 'DeliveryPolicy', value: topicName.DeliveryPolicy }`. -/
structure SubAttr where
  attrName : String
  attrValue : String
deriving Repr, DecidableEq

/-- `JSON.stringify({ healthyRetryPolicy: attribute.value })`
(src/index.js:270-277), with `v` standing for the serialized policy value. -/
def jsonHealthyRetryPolicy (v : String) : String :=
  "\x7b\"healthyRetryPolicy\":" ++ v ++ "\x7d"

/-- `_setSubscriptionAttributes` (src/index.js:263-281): on a falsy
subscription ARN it resolves immediately with an explanatory message and makes
no remote call; otherwise it issues the `setSubscriptionAttributes` call. The
result is the trace paired with what the returned promise resolves to. -/
inductive SetAttrOutcome
  | benign (msg : String)
  | remote
deriving Repr, DecidableEq

def setSubscriptionAttributesOp (subscriptionArn : Option String)
    (attr : SubAttr) : List Action × SetAttrOutcome :=
  if jsFalsyStr subscriptionArn then
    ([], SetAttrOutcome.benign "Subscription ARN was empty")
  else
    ([Action.setSubscriptionAttributes (jsStr subscriptionArn) attr.attrName
        (jsonHealthyRetryPolicy attr.attrValue)],
     SetAttrOutcome.remote)

/-- The function definition, as far as the actions read it (`fnDef.name`). -/
structure FnDef where
  fnDefName : String
deriving Repr, DecidableEq

/-- The plugin options read by the actions (`this._opts`). -/
structure Opts where
  noDeploy : Bool
deriving Repr, DecidableEq

/-- Responses of the remote API during one action, supplied up front:
`fnArn` answers `getFunction` (assumed stable across the at most two calls of
one action), `subsFirst` the first `listSubscriptionsByTopic`, `subscribeArn`
the `SubscriptionArn` of the `subscribe` response, and `subsAfterWait` the
listing seen by the re-resolution after the 10-second delay. -/
structure Env where
  fnEndpoint : Option String
  fnArn : String
  subsFirst : List Subscription
  subscribeArn : Option String
  subsAfterWait : List Subscription
deriving Repr, DecidableEq

/-- The resolution performed at src/index.js:109: the requested protocol and
`fnEndpoint || null` are passed, and the first listing answers. -/
def resolveFirst (binding : TopicBinding) (env : Env) : SubscriptionInfo :=
  getSubscriptionInfo env.fnArn binding.topicName (some binding.protocolOrDefault)
    (jsOrNull env.fnEndpoint) env.subsFirst

/-- The re-resolution performed at src/index.js:135 after the delay: the
protocol is passed again but no explicit endpoint, and the post-wait listing
answers. -/
def resolveAfterWait (binding : TopicBinding) (env : Env) : SubscriptionInfo :=
  getSubscriptionInfo env.fnArn binding.topicName (some binding.protocolOrDefault)
    none env.subsAfterWait

/-- The resolution performed at src/index.js:158: `unsubscribeFunction` passes
neither a protocol nor an explicit endpoint. -/
def resolveForUnsubscribe (binding : TopicBinding) (env : Env) : SubscriptionInfo :=
  getSubscriptionInfo env.fnArn binding.topicName none none env.subsFirst

/-- The trace of one `_getSubscriptionInfo` call (src/index.js:183-197):
`getFunction`, the two informational logs, then `listSubscriptionsByTopic`. -/
def getSubscriptionInfoTrace (fnDefName fnArn : String)
    (topicName : Option String) : List Action :=
  [Action.getFunction fnDefName,
   Action.log ("Function ARN: " ++ fnArn),
   Action.log ("Topic ARN: " ++ composeTopicArn fnArn topicName),
   Action.listSubscriptionsByTopic (composeTopicArn fnArn topicName)]

/-- `subscribeFunction` (src/index.js:77-148) as a trace over `env`:
noDeploy short-circuit; resolve; if an existing subscription is found, set
attributes on it when a delivery policy was requested; otherwise `subscribe`,
and on a pending-confirmation response with a requested policy, delay 10
seconds, re-resolve (with the protocol but no explicit endpoint) and set the
attributes on the re-resolved ARN. -/
def subscribeFunction (opts : Opts) (fnDef : FnDef) (binding : TopicBinding)
    (env : Env) : List Action :=
  let subscriptionAttrs : Option SubAttr :=
    (binding.deliveryPolicy).map (fun v => ⟨"DeliveryPolicy", v⟩)
  let protocol := binding.protocolOrDefault
  let topicName := binding.topicName
  if opts.noDeploy then
    [Action.log ("Not subscribing " ++ fnDef.fnDefName ++ " to " ++
      jsStr topicName ++ " because of the noDeploy flag")]
  else
    [Action.log ("Need to subscribe " ++ fnDef.fnDefName ++ " to " ++ jsStr topicName)]
    ++ getSubscriptionInfoTrace fnDef.fnDefName env.fnArn topicName
    ++ (let info := resolveFirst binding env
        let endpoint := jsOrStr env.fnEndpoint info.FunctionArn
        if ¬ jsFalsyStr info.SubscriptionArn then
          [Action.log ("Function " ++ info.FunctionArn ++
            " is already subscribed to " ++ info.TopicArn)]
          ++ (match subscriptionAttrs with
              | some attrs =>
                [Action.log "Setting subscription attributes"]
                ++ (setSubscriptionAttributesOp info.SubscriptionArn attrs).1
              | none => [])
        else
          [Action.subscribe info.TopicArn protocol endpoint,
           Action.log ("Function " ++ info.FunctionArn ++
             " is now subscribed to " ++ info.TopicArn)]
          ++ (match subscriptionAttrs with
              | none => []
              | some attrs =>
                if jsFalsyStr env.subscribeArn then []
                else if isPendingConfirmationArn (jsStr env.subscribeArn) then
                  [Action.log "Subscription is pending, resubscribing, retrying in 10 seconds",
                   Action.delay 10000]
                  ++ getSubscriptionInfoTrace fnDef.fnDefName env.fnArn topicName
                  ++ (let newInfo := resolveAfterWait binding env
                      [Action.log ("Setting subscription attributes on: " ++
                        jsStr newInfo.SubscriptionArn)]
                      ++ (setSubscriptionAttributesOp newInfo.SubscriptionArn attrs).1)
                else
                  [Action.log "Setting subscription attributes"]
                  ++ (setSubscriptionAttributesOp env.subscribeArn attrs).1))

/-- `unsubscribeFunction` (src/index.js:150-176) as a trace over `env`:
resolve with neither a protocol nor an explicit endpoint; if no subscription
was found, log and stop; otherwise issue `unsubscribe` and log completion. -/
def unsubscribeFunction (fnDef : FnDef) (binding : TopicBinding) (env : Env) :
    List Action :=
  let topicName := binding.topicName
  [Action.log ("Need to unsubscribe " ++ fnDef.fnDefName ++ " from " ++ jsStr topicName)]
  ++ getSubscriptionInfoTrace fnDef.fnDefName env.fnArn topicName
  ++ (let info := resolveForUnsubscribe binding env
      if jsFalsyStr info.SubscriptionArn then
        [Action.log ("Function " ++ info.FunctionArn ++ " is not subscribed to " ++
          info.TopicArn)]
      else
        [Action.unsubscribe (jsStr info.SubscriptionArn),
         Action.log ("Function " ++ info.FunctionArn ++ " is no longer subscribed to " ++
           info.TopicArn ++ " (deleted " ++ jsStr info.SubscriptionArn ++ ")")])

/-! ### Helper lemmas -/

theorem isPrefixList_trans : ∀ p q r : List Char,
    isPrefixList p q = true → isPrefixList q r = true → isPrefixList p r = true := by
  intro p
  induction p with
  | nil => intro q r _ _; rfl
  | cons a as ih =>
    intro q r hpq hqr
    cases q with
    | nil => simp [isPrefixList] at hpq
    | cons b bs =>
      cases r with
      | nil => simp [isPrefixList] at hqr
      | cons c cs =>
        simp [isPrefixList] at hpq hqr ⊢
        exact ⟨hpq.1.trans hqr.1, ih bs cs hpq.2 hqr.2⟩

theorem isInfixList_mono : ∀ (p q l : List Char),
    isPrefixList p q = true → isInfixList q l = true → isInfixList p l = true := by
  intro p q l
  induction l with
  | nil =>
    intro hpq hql
    simpa [isInfixList] using isPrefixList_trans p q [] hpq (by simpa [isInfixList] using hql)
  | cons c cs ih =>
    intro hpq hql
    simp [isInfixList] at hql ⊢
    cases hql with
    | inl h => exact Or.inl (isPrefixList_trans p q (c :: cs) hpq h)
    | inr h => exact Or.inr (ih hpq h)

/-- A subscription ARN containing `pending confirmation` contains `pending`. -/
theorem pendingArn_of_pendingConfirmationArn (s : String)
    (h : isPendingConfirmationArn s = true) : isPendingArn s = true := by
  exact isInfixList_mono "pending".data "pending confirmation".data (strLower s).data
    (by decide) h

/-- A pending-confirmation response ARN is not the empty string. -/
theorem pendingConfirmationArn_ne_empty (s : String)
    (h : isPendingConfirmationArn s = true) : (s == "") = false := by
  cases hs : s == ""
  · rfl
  · rw [beq_iff_eq] at hs
    subst hs
    simp [isPendingConfirmationArn, strContains, strLower, isInfixList, isPrefixList] at h

theorem jsFalsyStr_none : jsFalsyStr none = true := rfl

theorem jsFalsyStr_some (s : String) : jsFalsyStr (some s) = (s == "") := rfl

/-- A subscription selected by the resolver's predicate is not pending. -/
theorem subMatches_not_pending (protocol httpEndpoint : Option String)
    (fnArn : String) (sub : Subscription)
    (h : subMatches protocol httpEndpoint fnArn sub = true) :
    isPendingArn sub.SubscriptionArn = false := by
  by_cases hp : isPendingArn sub.SubscriptionArn
  · simp [subMatches, hp] at h
  · simpa using hp

/-- A subscription satisfying the spec-level reading of the source predicate
(not pending, and protocol-match OR endpoint-match) satisfies `subMatches`. -/
theorem subMatches_eq_true_of (protocol httpEndpoint : Option String)
    (fnArn : String) (s : Subscription)
    (hnp : isPendingArn s.SubscriptionArn = false)
    (hm : some s.Protocol = protocol ∨ some s.Endpoint = httpEndpoint ∨
      s.Endpoint = fnArn) :
    subMatches protocol httpEndpoint fnArn s = true := by
  rcases hm with h | h | h <;> simp [subMatches, hnp, h]

/-- A subscription that is pending, or matches neither the protocol nor any
endpoint, fails `subMatches`. -/
theorem subMatches_eq_false_of (protocol httpEndpoint : Option String)
    (fnArn : String) (x : Subscription)
    (h : isPendingArn x.SubscriptionArn = true ∨
      (some x.Protocol ≠ protocol ∧ some x.Endpoint ≠ httpEndpoint ∧
        x.Endpoint ≠ fnArn)) :
    subMatches protocol httpEndpoint fnArn x = false := by
  by_cases hpend : isPendingArn x.SubscriptionArn
  · simp [subMatches, hpend]
  · rcases h with hpend' | ⟨h1, h2, h3⟩
    · exact absurd hpend' hpend
    · simp [subMatches, hpend, h1, h2, h3]

/-- `List.find?` returns the first element satisfying the predicate: if all of
`l₁` fail and `s` satisfies it, the search over `l₁ ++ s :: l₂` yields `s`. -/
theorem find?_eq_some_of_first {α : Type} (p : α → Bool) :
    ∀ (l₁ : List α) (s : α) (l₂ : List α),
      (∀ x ∈ l₁, p x = false) → p s = true →
      (l₁ ++ s :: l₂).find? p = some s := by
  intro l₁
  induction l₁ with
  | nil =>
    intro s l₂ _ hs
    rw [List.nil_append]
    exact List.find?_cons_of_pos _ hs
  | cons a as ih =>
    intro s l₂ h hs
    have ha : p a = false := h a (List.mem_cons_self a as)
    rw [List.cons_append, List.find?_cons_of_neg]
    · exact ih s l₂ (fun x hx => h x (List.mem_cons_of_mem a hx)) hs
    · simp [ha]

/-! ### Claim theorems -/

/-- C10: Name normalization is deterministic: the topic name `my-topic!`
normalizes to `Mytopic` (non-alphanumerics stripped, first letter capitalized),
the empty topic name normalizes to an absent result, and `_normalize` maps the
empty and the `undefined` name to an absent result. -/
theorem c10_normalization_deterministic :
    normalizeTopicName (some "my-topic!") = Except.ok (some "Mytopic") ∧
    normalizeTopicName (some "") = Except.ok none ∧
    normalize (some "") = none ∧
    normalize none = none :=
  ⟨rfl, rfl, rfl, rfl⟩

/-- C7: `_setSubscriptionAttributes` with a falsy (empty or `undefined`)
subscription ARN issues no remote call (empty trace) and resolves with the
benign explanatory message, for every attribute. -/
theorem c7_set_attributes_empty_arn_benign (arn : Option String) (attr : SubAttr)
    (h : jsFalsyStr arn = true) :
    setSubscriptionAttributesOp arn attr =
      ([], SetAttrOutcome.benign "Subscription ARN was empty") := by
  simp [setSubscriptionAttributesOp, h]

theorem c7_witness :
    jsFalsyStr none = true ∧
    setSubscriptionAttributesOp none ⟨"DeliveryPolicy", "policy"⟩ =
      ([], SetAttrOutcome.benign "Subscription ARN was empty") :=
  ⟨rfl, c7_set_attributes_empty_arn_benign none ⟨"DeliveryPolicy", "policy"⟩ rfl⟩

/-- C3: for every function ARN whose colon-delimited fields have a position 3
and 4, the Subscription Resolver composes the topic ARN as the literal prefix
`arn:aws:sns:` followed by the region (position 3), `:`, the account id
(position 4), `:`, and the topic name. -/
theorem c3_topic_arn_composition (fnArn topicName r a : String)
    (protocol httpEndpoint : Option String) (subs : List Subscription)
    (h3 : (splitColon fnArn)[3]? = some r)
    (h4 : (splitColon fnArn)[4]? = some a) :
    (getSubscriptionInfo fnArn (some topicName) protocol httpEndpoint subs).TopicArn =
      "arn:aws:sns:" ++ r ++ ":" ++ a ++ ":" ++ topicName := by
  simp [getSubscriptionInfo, composeTopicArn, h3, h4, jsStr]

theorem c3_witness :
    (splitColon "arn:aws:lambda:us-east-1:111122223333:function:notify-dev")[3]?
      = some "us-east-1" ∧
    (splitColon "arn:aws:lambda:us-east-1:111122223333:function:notify-dev")[4]?
      = some "111122223333" ∧
    (getSubscriptionInfo "arn:aws:lambda:us-east-1:111122223333:function:notify-dev"
        (some "orders") (some "lambda") none []).TopicArn =
      "arn:aws:sns:" ++ "us-east-1" ++ ":" ++ "111122223333" ++ ":" ++ "orders" :=
  ⟨rfl, rfl,
    c3_topic_arn_composition "arn:aws:lambda:us-east-1:111122223333:function:notify-dev"
      "orders" "us-east-1" "111122223333" (some "lambda") none [] rfl rfl⟩

/-- C8: for every function name and topic binding carrying a topic name, the
permission compiler produces exactly the resource keyed by the concatenation of
the normalized function name, the literal `LambdaPermission` and the normalized
topic name, with Type `AWS::Lambda::Permission`, Principal `sns.amazonaws.com`,
Action `lambda:InvokeFunction` and a SourceArn joining the SNS prefix, the
region and account placeholders and the topic name; the key is a pure function
of the inputs, writing it changes no other key, and re-inserting under the same
key overwrites rather than duplicates. -/
theorem c8_permission_resource (fnName t : String) (binding : TopicBinding)
    (hb : binding.topicName = some t) (resources : String → Option Permission) :
    ∃ perm : Permission,
      addEventPermission fnName binding = Except.ok
        (jsStr (normalize (some fnName)) ++ "LambdaPermission" ++
          jsStr (normalize (some (stripNonAlnum t))), perm) ∧
      perm.resourceType = "AWS::Lambda::Permission" ∧
      perm.FunctionName =
        CfnVal.getAtt (jsStr (normalize (some fnName)) ++ "LambdaFunction") "Arn" ∧
      perm.Action = "lambda:InvokeFunction" ∧
      perm.Principal = "sns.amazonaws.com" ∧
      perm.SourceArn = CfnVal.joinColon [CfnVal.lit "arn:aws:sns",
        CfnVal.ref "AWS::Region", CfnVal.ref "AWS::AccountId", CfnVal.lit t] ∧
      (∀ key, insertResource (insertResource resources key perm) key perm =
        insertResource resources key perm) ∧
      (∀ key k, k ≠ key → insertResource resources key perm k = resources k) := by
  refine ⟨{ resourceType := "AWS::Lambda::Permission"
            FunctionName :=
              CfnVal.getAtt (jsStr (normalize (some fnName)) ++ "LambdaFunction") "Arn"
            Action := "lambda:InvokeFunction"
            Principal := "sns.amazonaws.com"
            SourceArn := CfnVal.joinColon [CfnVal.lit "arn:aws:sns",
              CfnVal.ref "AWS::Region", CfnVal.ref "AWS::AccountId", CfnVal.lit t] },
         ?_, rfl, rfl, rfl, rfl, rfl, ?_, ?_⟩
  · simp [addEventPermission, hb, normalizeTopicName, bind, Except.bind]
  · intro key
    funext k
    by_cases hk : k = key <;> simp [insertResource, hk]
  · intro key k hk
    simp [insertResource, hk]

theorem c8_witness :
    (TopicBinding.str "my-topic!").topicName = some "my-topic!" ∧
    jsStr (normalize (some "myFunc")) ++ "LambdaPermission" ++
      jsStr (normalize (some (stripNonAlnum "my-topic!"))) =
        "MyFuncLambdaPermissionMytopic" ∧
    (∃ perm : Permission,
      addEventPermission "myFunc" (TopicBinding.str "my-topic!") = Except.ok
        (jsStr (normalize (some "myFunc")) ++ "LambdaPermission" ++
          jsStr (normalize (some (stripNonAlnum "my-topic!"))), perm) ∧
      perm.resourceType = "AWS::Lambda::Permission" ∧
      perm.FunctionName =
        CfnVal.getAtt (jsStr (normalize (some "myFunc")) ++ "LambdaFunction") "Arn" ∧
      perm.Action = "lambda:InvokeFunction" ∧
      perm.Principal = "sns.amazonaws.com" ∧
      perm.SourceArn = CfnVal.joinColon [CfnVal.lit "arn:aws:sns",
        CfnVal.ref "AWS::Region", CfnVal.ref "AWS::AccountId", CfnVal.lit "my-topic!"] ∧
      (∀ key, insertResource (insertResource (fun _ => none) key perm) key perm =
        insertResource (fun _ => none) key perm) ∧
      (∀ key k, k ≠ key → insertResource (fun _ => none) key perm k = none)) :=
  ⟨rfl, rfl,
    c8_permission_resource "myFunc" "my-topic!" (TopicBinding.str "my-topic!") rfl
      (fun _ => none)⟩

/-- C9, counterexample: for the concrete topic binding that is an object with
no topic field at all, the compile operation does not proceed: unwrapping
yields an `undefined` topic name and `_normalizeTopicName` throws a `TypeError`
(`undefined.replace`), i.e. `addEventPermission` fails fast locally instead of
producing a malformed ARN for the remote API to reject. -/
theorem c9_counterexample :
    addEventPermission "myFunc" (TopicBinding.obj none none (some "policy")) =
      Except.error "TypeError: Cannot read properties of undefined" := rfl

/-- C9, amended: a topic binding whose topic name is the empty string is not
validated: the permission compiler proceeds without error, and the Subscription
Resolver composes the syntactically malformed topic ARN
`arn:aws:sns:<region>:<account>:` (empty topic component) and hands it to the
remote `listSubscriptionsByTopic` call, rather than failing fast locally. -/
theorem c9_empty_topic_not_validated (fnName r a : String)
    (pf pd : Option String) (fnDef : FnDef) (env : Env)
    (h3 : (splitColon env.fnArn)[3]? = some r)
    (h4 : (splitColon env.fnArn)[4]? = some a) :
    (∃ key perm, addEventPermission fnName (TopicBinding.obj (some "") pf pd) =
      Except.ok (key, perm)) ∧
    composeTopicArn env.fnArn (some "") = "arn:aws:sns:" ++ r ++ ":" ++ a ++ ":" ∧
    Action.listSubscriptionsByTopic ("arn:aws:sns:" ++ r ++ ":" ++ a ++ ":") ∈
      unsubscribeFunction fnDef (TopicBinding.obj (some "") pf pd) env := by
  have hc : composeTopicArn env.fnArn (some "") =
      "arn:aws:sns:" ++ r ++ ":" ++ a ++ ":" := by
    simp [composeTopicArn, h3, h4, jsStr]
  refine ⟨⟨_, _, rfl⟩, hc, ?_⟩
  rw [← hc]
  simp [unsubscribeFunction, getSubscriptionInfoTrace, TopicBinding.topicName]

theorem c9_witness :
    (splitColon "arn:aws:lambda:us-east-1:111122223333:function:notify-dev")[3]?
      = some "us-east-1" ∧
    (splitColon "arn:aws:lambda:us-east-1:111122223333:function:notify-dev")[4]?
      = some "111122223333" ∧
    ((∃ key perm, addEventPermission "myFunc" (TopicBinding.obj (some "") none none) =
        Except.ok (key, perm)) ∧
      composeTopicArn "arn:aws:lambda:us-east-1:111122223333:function:notify-dev"
        (some "") = "arn:aws:sns:" ++ "us-east-1" ++ ":" ++ "111122223333" ++ ":" ∧
      Action.listSubscriptionsByTopic
          ("arn:aws:sns:" ++ "us-east-1" ++ ":" ++ "111122223333" ++ ":") ∈
        unsubscribeFunction ⟨"notify"⟩ (TopicBinding.obj (some "") none none)
          ⟨none, "arn:aws:lambda:us-east-1:111122223333:function:notify-dev",
            [], none, []⟩) :=
  ⟨rfl, rfl,
    c9_empty_topic_not_validated "myFunc" "us-east-1" "111122223333" none none
      ⟨"notify"⟩
      ⟨none, "arn:aws:lambda:us-east-1:111122223333:function:notify-dev", [], none, []⟩
      rfl rfl⟩

/-- C1, counterexample: a non-pending subscription whose protocol matches the
requested (default) protocol `lambda` but whose endpoint matches neither the
explicit endpoint nor the function ARN. The claim (protocol-match AND
endpoint-match, formalized by `specSubMatches`) selects nothing, but the code
(`subMatches`, where JS operator precedence and the truthy `'lambda'` literal
turn the condition into a disjunction) selects it and returns its ARN. -/
theorem c1_counterexample :
    (getSubscriptionInfo "arn:aws:lambda:us-east-1:111122223333:function:notify-dev"
        (some "orders") (some "lambda") none
        [Subscription.mk "arn:aws:sns:us-east-1:111122223333:orders:deadbeef"
          "lambda" "https://example.com/hook"]).SubscriptionArn =
      some "arn:aws:sns:us-east-1:111122223333:orders:deadbeef" ∧
    [Subscription.mk "arn:aws:sns:us-east-1:111122223333:orders:deadbeef"
        "lambda" "https://example.com/hook"].find?
      (specSubMatches (some "lambda") none
        "arn:aws:lambda:us-east-1:111122223333:function:notify-dev") = none := by
  constructor <;> rfl

/-- C1, amended: the resolver selects the first subscription whose protocol
matches the requested protocol OR whose endpoint matches the explicit endpoint
or the function ARN (JS precedence makes the source's condition a disjunction),
excluding any subscription whose ARN contains `pending` case-insensitively.
First-match selection is characterized positionally: whenever the listing
splits as `l₁ ++ s :: l₂` with every subscription of `l₁` failing that
predicate and `s` satisfying it, the resolver returns exactly `s`'s ARN and
endpoint; conversely any returned ARN comes from a satisfying subscription of
the listing, and both fields are absent when every subscription fails. -/
theorem c1_amended_selection (fnArn : String) (topicName : Option String)
    (protocol httpEndpoint : Option String) (subs : List Subscription) :
    (∀ (l₁ : List Subscription) (s : Subscription) (l₂ : List Subscription),
      subs = l₁ ++ s :: l₂ →
      (∀ x ∈ l₁, isPendingArn x.SubscriptionArn = true ∨
        (some x.Protocol ≠ protocol ∧ some x.Endpoint ≠ httpEndpoint ∧
          x.Endpoint ≠ fnArn)) →
      isPendingArn s.SubscriptionArn = false →
      (some s.Protocol = protocol ∨ some s.Endpoint = httpEndpoint ∨
        s.Endpoint = fnArn) →
      (getSubscriptionInfo fnArn topicName protocol httpEndpoint subs).SubscriptionArn
          = some s.SubscriptionArn ∧
      (getSubscriptionInfo fnArn topicName protocol httpEndpoint subs).Endpoint
          = some s.Endpoint) ∧
    (∀ a, (getSubscriptionInfo fnArn topicName protocol httpEndpoint subs).SubscriptionArn
        = some a →
      ∃ s ∈ subs, s.SubscriptionArn = a ∧
        (getSubscriptionInfo fnArn topicName protocol httpEndpoint subs).Endpoint
          = some s.Endpoint ∧
        isPendingArn s.SubscriptionArn = false ∧
        (some s.Protocol = protocol ∨ some s.Endpoint = httpEndpoint ∨
          s.Endpoint = fnArn)) ∧
    ((∀ s ∈ subs, isPendingArn s.SubscriptionArn = true ∨
        (some s.Protocol ≠ protocol ∧ some s.Endpoint ≠ httpEndpoint ∧
          s.Endpoint ≠ fnArn)) →
      (getSubscriptionInfo fnArn topicName protocol httpEndpoint subs).SubscriptionArn
          = none ∧
      (getSubscriptionInfo fnArn topicName protocol httpEndpoint subs).Endpoint
          = none) := by
  refine ⟨?_, ?_, ?_⟩
  · intro l₁ s l₂ hsubs hl₁ hnp hm
    have hfind : subs.find? (subMatches protocol httpEndpoint fnArn) = some s := by
      rw [hsubs]
      exact find?_eq_some_of_first _ l₁ s l₂
        (fun x hx => subMatches_eq_false_of protocol httpEndpoint fnArn x (hl₁ x hx))
        (subMatches_eq_true_of protocol httpEndpoint fnArn s hnp hm)
    exact ⟨by simp [getSubscriptionInfo, hfind], by simp [getSubscriptionInfo, hfind]⟩
  · intro a ha
    rcases hfind : subs.find? (subMatches protocol httpEndpoint fnArn) with _ | s
    · simp [getSubscriptionInfo, hfind] at ha
    · have hmem := List.mem_of_find?_eq_some hfind
      have hp := List.find?_some hfind
      have hnp := subMatches_not_pending protocol httpEndpoint fnArn s hp
      simp [getSubscriptionInfo, hfind] at ha
      simp [subMatches, hnp] at hp
      exact ⟨s, hmem, ha, by simp [getSubscriptionInfo, hfind], hnp, hp⟩
  · intro h
    have hfind : subs.find? (subMatches protocol httpEndpoint fnArn) = none := by
      rw [List.find?_eq_none]
      intro x hx
      simp [subMatches_eq_false_of protocol httpEndpoint fnArn x (h x hx)]
    simp [getSubscriptionInfo, hfind]

theorem c1_amended_witness :
    ((getSubscriptionInfo "arn:fn" (some "orders") (some "lambda") none
        [Subscription.mk "PendingConfirmation" "lambda" "arn:fn",
         Subscription.mk "arn:real" "http" "arn:fn",
         Subscription.mk "arn:other" "lambda" "arn:fn"]).SubscriptionArn
        = some "arn:real" ∧
     (getSubscriptionInfo "arn:fn" (some "orders") (some "lambda") none
        [Subscription.mk "PendingConfirmation" "lambda" "arn:fn",
         Subscription.mk "arn:real" "http" "arn:fn",
         Subscription.mk "arn:other" "lambda" "arn:fn"]).Endpoint = some "arn:fn") ∧
    (∃ s ∈ [Subscription.mk "PendingConfirmation" "lambda" "arn:fn",
            Subscription.mk "arn:real" "http" "arn:fn",
            Subscription.mk "arn:other" "lambda" "arn:fn"],
      s.SubscriptionArn = "arn:real" ∧
      (getSubscriptionInfo "arn:fn" (some "orders") (some "lambda") none
        [Subscription.mk "PendingConfirmation" "lambda" "arn:fn",
         Subscription.mk "arn:real" "http" "arn:fn",
         Subscription.mk "arn:other" "lambda" "arn:fn"]).Endpoint = some s.Endpoint ∧
      isPendingArn s.SubscriptionArn = false ∧
      (some s.Protocol = some "lambda" ∨ some s.Endpoint = none ∨
        s.Endpoint = "arn:fn")) ∧
    ((getSubscriptionInfo "arn:fn" (some "orders") (some "lambda") none
        [Subscription.mk "PendingConfirmation" "lambda" "arn:fn"]).SubscriptionArn
        = none ∧
     (getSubscriptionInfo "arn:fn" (some "orders") (some "lambda") none
        [Subscription.mk "PendingConfirmation" "lambda" "arn:fn"]).Endpoint = none) :=
  ⟨(c1_amended_selection "arn:fn" (some "orders") (some "lambda") none
      [Subscription.mk "PendingConfirmation" "lambda" "arn:fn",
       Subscription.mk "arn:real" "http" "arn:fn",
       Subscription.mk "arn:other" "lambda" "arn:fn"]).1
      [Subscription.mk "PendingConfirmation" "lambda" "arn:fn"]
      (Subscription.mk "arn:real" "http" "arn:fn")
      [Subscription.mk "arn:other" "lambda" "arn:fn"]
      rfl (by decide) (by decide) (by decide),
   (c1_amended_selection "arn:fn" (some "orders") (some "lambda") none
      [Subscription.mk "PendingConfirmation" "lambda" "arn:fn",
       Subscription.mk "arn:real" "http" "arn:fn",
       Subscription.mk "arn:other" "lambda" "arn:fn"]).2.1 "arn:real" rfl,
   (c1_amended_selection "arn:fn" (some "orders") (some "lambda") none
      [Subscription.mk "PendingConfirmation" "lambda" "arn:fn"]).2.2 (by decide)⟩

/-- C5: `unsubscribeFunction` resolves with neither a protocol nor an explicit
endpoint, so the resolver's predicate can only accept a subscription whose
endpoint equals the function ARN; consequently any `unsubscribe` call the
action issues targets a listed subscription whose endpoint is the function ARN,
and a subscription whose endpoint is an HTTP invoke URL is never unsubscribed. -/
theorem c5_unsubscribe_matches_only_function_arn :
    (∀ (fnArn : String) (sub : Subscription),
        subMatches none none fnArn sub = true → sub.Endpoint = fnArn) ∧
    (∀ (fnDef : FnDef) (binding : TopicBinding) (env : Env) (a : String),
        Action.unsubscribe a ∈ unsubscribeFunction fnDef binding env →
        ∃ s ∈ env.subsFirst, s.SubscriptionArn = a ∧ s.Endpoint = env.fnArn) := by
  have key : ∀ (fnArn : String) (sub : Subscription),
      subMatches none none fnArn sub = true → sub.Endpoint = fnArn := by
    intro fnArn sub h
    by_cases hp : isPendingArn sub.SubscriptionArn
    · simp [subMatches, hp] at h
    · simpa [subMatches, hp] using h
  refine ⟨key, ?_⟩
  intro fnDef binding env a ha
  simp [unsubscribeFunction, getSubscriptionInfoTrace] at ha
  rcases hfind : env.subsFirst.find? (subMatches none none env.fnArn) with _ | s
  · simp [resolveForUnsubscribe, getSubscriptionInfo, hfind, jsFalsyStr] at ha
  · have hmem := List.mem_of_find?_eq_some hfind
    have hpred := List.find?_some hfind
    by_cases hempty : s.SubscriptionArn = ""
    · simp [resolveForUnsubscribe, getSubscriptionInfo, hfind, jsFalsyStr, hempty] at ha
    · simp [resolveForUnsubscribe, getSubscriptionInfo, hfind, jsFalsyStr, hempty,
        jsStr] at ha
      exact ⟨s, hmem, ha.symm, key env.fnArn s hpred⟩

theorem c5_witness :
    (Subscription.mk "arn:sub2" "lambda" "arn:fn").Endpoint = "arn:fn" ∧
    (∃ s ∈ [Subscription.mk "arn:sub1" "https"
              "https://1234.execute-api.us-east-1.amazonaws.com/dev/hook",
            Subscription.mk "arn:sub2" "lambda" "arn:fn"],
        s.SubscriptionArn = "arn:sub2" ∧ s.Endpoint = "arn:fn") :=
  ⟨c5_unsubscribe_matches_only_function_arn.1 "arn:fn"
      (Subscription.mk "arn:sub2" "lambda" "arn:fn") (by decide),
   c5_unsubscribe_matches_only_function_arn.2 ⟨"notify"⟩ (TopicBinding.str "orders")
      ⟨none, "arn:fn",
        [Subscription.mk "arn:sub1" "https"
          "https://1234.execute-api.us-east-1.amazonaws.com/dev/hook",
         Subscription.mk "arn:sub2" "lambda" "arn:fn"], none, []⟩ "arn:sub2"
      (by decide)⟩

/-- C6: when the resolver finds no existing subscription, `unsubscribeFunction`
produces exactly the benign trace that logs that the function is not subscribed
— issuing no mutating remote call — and returns normally rather than failing. -/
theorem c6_unsubscribe_no_subscription_noop (fnDef : FnDef) (binding : TopicBinding)
    (env : Env)
    (h : jsFalsyStr (resolveForUnsubscribe binding env).SubscriptionArn = true) :
    unsubscribeFunction fnDef binding env =
      [Action.log ("Need to unsubscribe " ++ fnDef.fnDefName ++ " from " ++
        jsStr binding.topicName)]
      ++ getSubscriptionInfoTrace fnDef.fnDefName env.fnArn binding.topicName
      ++ [Action.log ("Function " ++ env.fnArn ++ " is not subscribed to " ++
          composeTopicArn env.fnArn binding.topicName)] ∧
    ∀ act ∈ unsubscribeFunction fnDef binding env, act.isMutating = false := by
  have htr : unsubscribeFunction fnDef binding env =
      [Action.log ("Need to unsubscribe " ++ fnDef.fnDefName ++ " from " ++
        jsStr binding.topicName)]
      ++ getSubscriptionInfoTrace fnDef.fnDefName env.fnArn binding.topicName
      ++ [Action.log ("Function " ++ env.fnArn ++ " is not subscribed to " ++
          composeTopicArn env.fnArn binding.topicName)] := by
    rcases hfind : env.subsFirst.find? (subMatches none none env.fnArn) with _ | s
    · simp [unsubscribeFunction, resolveForUnsubscribe, getSubscriptionInfo, hfind,
        jsFalsyStr]
    · simp [resolveForUnsubscribe, getSubscriptionInfo, hfind, jsFalsyStr] at h
      simp [unsubscribeFunction, resolveForUnsubscribe, getSubscriptionInfo, hfind,
        jsFalsyStr, h]
  refine ⟨htr, ?_⟩
  rw [htr]
  intro act hact
  simp [getSubscriptionInfoTrace] at hact
  rcases hact with rfl | rfl | rfl | rfl | rfl | rfl <;> rfl

theorem c6_witness :
    jsFalsyStr (resolveForUnsubscribe (TopicBinding.str "orders")
        ⟨none, "arn:fn", [], none, []⟩).SubscriptionArn = true ∧
    (unsubscribeFunction ⟨"notify"⟩ (TopicBinding.str "orders")
        ⟨none, "arn:fn", [], none, []⟩ =
      [Action.log ("Need to unsubscribe " ++ "notify" ++ " from " ++
        jsStr (TopicBinding.str "orders").topicName)]
      ++ getSubscriptionInfoTrace "notify" "arn:fn" (TopicBinding.str "orders").topicName
      ++ [Action.log ("Function " ++ "arn:fn" ++ " is not subscribed to " ++
          composeTopicArn "arn:fn" (TopicBinding.str "orders").topicName)] ∧
     ∀ act ∈ unsubscribeFunction ⟨"notify"⟩ (TopicBinding.str "orders")
        ⟨none, "arn:fn", [], none, []⟩, act.isMutating = false) :=
  ⟨rfl, c6_unsubscribe_no_subscription_noop ⟨"notify"⟩ (TopicBinding.str "orders")
    ⟨none, "arn:fn", [], none, []⟩ rfl⟩

theorem countSubscribeCalls_nil : countSubscribeCalls [] = 0 := rfl

theorem countSubscribeCalls_cons (a : Action) (l : List Action) :
    countSubscribeCalls (a :: l) =
      countSubscribeCalls l + if a.isSubscribeCall then 1 else 0 :=
  List.countP_cons _ _ _

theorem countSubscribeCalls_append (l₁ l₂ : List Action) :
    countSubscribeCalls (l₁ ++ l₂) =
      countSubscribeCalls l₁ + countSubscribeCalls l₂ :=
  List.countP_append _ _ _

theorem countSubscribeCalls_setAttrOp (o : Option String) (a : SubAttr) :
    countSubscribeCalls (setSubscriptionAttributesOp o a).1 = 0 := by
  unfold setSubscriptionAttributesOp
  split <;> simp [countSubscribeCalls_cons, countSubscribeCalls_nil, Action.isSubscribeCall]

theorem countSubscribeCalls_trace (fnDefName fnArn : String)
    (topicName : Option String) :
    countSubscribeCalls (getSubscriptionInfoTrace fnDefName fnArn topicName) = 0 := by
  simp [getSubscriptionInfoTrace, countSubscribeCalls_cons, countSubscribeCalls_nil,
    Action.isSubscribeCall]

/-- An existing (truthy) resolved subscription means no `subscribe` call is
issued: the already-subscribed branch of `subscribeFunction` is taken. -/
theorem subscribeFunction_no_subscribe_of_existing (opts : Opts) (fnDef : FnDef)
    (binding : TopicBinding) (env : Env)
    (hres : jsFalsyStr (resolveFirst binding env).SubscriptionArn = false) :
    countSubscribeCalls (subscribeFunction opts fnDef binding env) = 0 := by
  by_cases hnd : opts.noDeploy
  · simp [subscribeFunction, hnd, countSubscribeCalls_cons, countSubscribeCalls_nil,
      Action.isSubscribeCall]
  · rcases hattr : binding.deliveryPolicy with _ | dp <;>
      simp [subscribeFunction, hnd, hres, hattr, countSubscribeCalls_append,
        countSubscribeCalls_cons, countSubscribeCalls_nil, countSubscribeCalls_trace,
        countSubscribeCalls_setAttrOp, Action.isSubscribeCall]

/-- Any single run of `subscribeFunction` issues at most one `subscribe` call. -/
theorem subscribeFunction_count_le_one (opts : Opts) (fnDef : FnDef)
    (binding : TopicBinding) (env : Env) :
    countSubscribeCalls (subscribeFunction opts fnDef binding env) ≤ 1 := by
  by_cases hnd : opts.noDeploy
  · simp [subscribeFunction, hnd, countSubscribeCalls_cons, countSubscribeCalls_nil,
      Action.isSubscribeCall]
  · by_cases hres : jsFalsyStr (resolveFirst binding env).SubscriptionArn
    · rcases hattr : binding.deliveryPolicy with _ | dp
      · simp [subscribeFunction, hnd, hres, hattr, countSubscribeCalls_append,
          countSubscribeCalls_cons, countSubscribeCalls_nil, countSubscribeCalls_trace,
          Action.isSubscribeCall]
      · by_cases hsa : jsFalsyStr env.subscribeArn
        · simp [subscribeFunction, hnd, hres, hattr, hsa, countSubscribeCalls_append,
            countSubscribeCalls_cons, countSubscribeCalls_nil, countSubscribeCalls_trace,
            Action.isSubscribeCall]
        · by_cases hpc : isPendingConfirmationArn (jsStr env.subscribeArn)
          · simp [subscribeFunction, hnd, hres, hattr, hsa, hpc,
              countSubscribeCalls_append, countSubscribeCalls_cons,
              countSubscribeCalls_nil, countSubscribeCalls_trace,
              countSubscribeCalls_setAttrOp, Action.isSubscribeCall]
          · simp [subscribeFunction, hnd, hres, hattr, hsa, hpc,
              countSubscribeCalls_append, countSubscribeCalls_cons,
              countSubscribeCalls_nil, countSubscribeCalls_trace,
              countSubscribeCalls_setAttrOp, Action.isSubscribeCall]
    · have h0 := subscribeFunction_no_subscribe_of_existing opts fnDef binding env
        (by simpa using hres)
      omega

/-- C4: the subscribe action is idempotent. When the resolver reports an
existing active subscription, the action issues no `subscribe` call: with a
requested delivery policy the only mutating call is the set-attributes
operation on the existing identifier, and without one the run is a no-op with
no mutating call at all. Consequently two sequential runs for the same
function and topic, the second of which sees the existing subscription, issue
at most one `subscribe` call in total. -/
theorem c4_subscribe_idempotent :
    (∀ (opts : Opts) (fnDef : FnDef) (binding : TopicBinding) (env : Env),
      opts.noDeploy = false →
      jsFalsyStr (resolveFirst binding env).SubscriptionArn = false →
      countSubscribeCalls (subscribeFunction opts fnDef binding env) = 0 ∧
      (binding.deliveryPolicy = none →
        ∀ act ∈ subscribeFunction opts fnDef binding env, act.isMutating = false) ∧
      (∀ dp, binding.deliveryPolicy = some dp →
        List.filter Action.isMutating (subscribeFunction opts fnDef binding env) =
          (setSubscriptionAttributesOp (resolveFirst binding env).SubscriptionArn
            (SubAttr.mk "DeliveryPolicy" dp)).1)) ∧
    (∀ (opts : Opts) (fnDef : FnDef) (binding : TopicBinding) (env₁ env₂ : Env),
      jsFalsyStr (resolveFirst binding env₂).SubscriptionArn = false →
      countSubscribeCalls (subscribeFunction opts fnDef binding env₁ ++
        subscribeFunction opts fnDef binding env₂) ≤ 1) := by
  constructor
  · intro opts fnDef binding env hnd hres
    refine ⟨subscribeFunction_no_subscribe_of_existing opts fnDef binding env hres,
      ?_, ?_⟩
    · intro hattr act hact
      rcases hfind : env.subsFirst.find? (subMatches (some binding.protocolOrDefault)
          (jsOrNull env.fnEndpoint) env.fnArn) with _ | s
      · rw [resolveFirst, getSubscriptionInfo] at hres
        simp [hfind, jsFalsyStr] at hres
      · have hres' : jsFalsyStr (some s.SubscriptionArn) = false := by
          rw [resolveFirst, getSubscriptionInfo] at hres
          simpa [hfind] using hres
        simp [subscribeFunction, hnd, hattr, getSubscriptionInfoTrace,
          resolveFirst, getSubscriptionInfo, hfind, hres'] at hact
        rcases hact with rfl | rfl | rfl | rfl | rfl | rfl <;> rfl
    · intro dp hattr
      rcases hfind : env.subsFirst.find? (subMatches (some binding.protocolOrDefault)
          (jsOrNull env.fnEndpoint) env.fnArn) with _ | s
      · rw [resolveFirst, getSubscriptionInfo] at hres
        simp [hfind, jsFalsyStr] at hres
      · by_cases hemp : s.SubscriptionArn = ""
        · rw [resolveFirst, getSubscriptionInfo] at hres
          simp [hfind, jsFalsyStr, hemp] at hres
        · simp [subscribeFunction, hnd, hres, hattr, getSubscriptionInfoTrace,
            resolveFirst, getSubscriptionInfo, hfind, setSubscriptionAttributesOp,
            jsFalsyStr, hemp, jsStr, Action.isMutating]
  · intro opts fnDef binding env₁ env₂ hres₂
    have h₁ := subscribeFunction_count_le_one opts fnDef binding env₁
    have h₂ := subscribeFunction_no_subscribe_of_existing opts fnDef binding env₂ hres₂
    rw [countSubscribeCalls_append, h₂]
    omega

theorem c4_witness :
    (⟨false⟩ : Opts).noDeploy = false ∧
    jsFalsyStr (resolveFirst (TopicBinding.str "orders")
      ⟨none, "arn:fn", [Subscription.mk "arn:sub" "lambda" "arn:fn"], none,
        []⟩).SubscriptionArn = false ∧
    countSubscribeCalls (subscribeFunction ⟨false⟩ ⟨"notify"⟩ (TopicBinding.str "orders")
      ⟨none, "arn:fn", [Subscription.mk "arn:sub" "lambda" "arn:fn"], none, []⟩) = 0 ∧
    countSubscribeCalls (subscribeFunction ⟨false⟩ ⟨"notify"⟩ (TopicBinding.str "orders")
        ⟨none, "arn:fn", [], some "arn:sub", []⟩ ++
      subscribeFunction ⟨false⟩ ⟨"notify"⟩ (TopicBinding.str "orders")
        ⟨none, "arn:fn", [Subscription.mk "arn:sub" "lambda" "arn:fn"], none, []⟩) ≤ 1 :=
  ⟨rfl, rfl,
    (c4_subscribe_idempotent.1 ⟨false⟩ ⟨"notify"⟩ (TopicBinding.str "orders")
      ⟨none, "arn:fn", [Subscription.mk "arn:sub" "lambda" "arn:fn"], none, []⟩
      rfl rfl).1,
    c4_subscribe_idempotent.2 ⟨false⟩ ⟨"notify"⟩ (TopicBinding.str "orders")
      ⟨none, "arn:fn", [], some "arn:sub", []⟩
      ⟨none, "arn:fn", [Subscription.mk "arn:sub" "lambda" "arn:fn"], none, []⟩ rfl⟩

/-- A subscription ARN produced by the post-wait re-resolution is never a
pending one. -/
theorem resolveAfterWait_not_pending (binding : TopicBinding) (env : Env)
    (x : String) (h : (resolveAfterWait binding env).SubscriptionArn = some x) :
    isPendingArn x = false := by
  rcases hfind : env.subsAfterWait.find?
      (subMatches (some binding.protocolOrDefault) none env.fnArn) with _ | s
  · simp [resolveAfterWait, getSubscriptionInfo, hfind] at h
  · simp [resolveAfterWait, getSubscriptionInfo, hfind] at h
    rw [← h]
    exact subMatches_not_pending _ _ _ s (List.find?_some hfind)

/-- C2: on the subscribe path with a requested delivery policy, if the
subscribe response's identifier contains `pending confirmation`
(case-insensitively) the action delays 10 seconds, re-resolves, and every
set-attributes call it then issues targets the post-wait identifier — which is
provably different from the pending response identifier — and is issued
whenever the re-resolution yields a (truthy) identifier; if the response's
identifier is not pending, the policy is applied directly to the response's
identifier with no delay. -/
theorem c2_pending_confirmation_policy (opts : Opts) (fnDef : FnDef)
    (binding : TopicBinding) (env : Env) (dp r : String)
    (hnd : opts.noDeploy = false)
    (hdp : binding.deliveryPolicy = some dp)
    (hres : jsFalsyStr (resolveFirst binding env).SubscriptionArn = true)
    (hresp : env.subscribeArn = some r) :
    (isPendingConfirmationArn r = true →
      Action.delay 10000 ∈ subscribeFunction opts fnDef binding env ∧
      (∀ x n v, Action.setSubscriptionAttributes x n v ∈
          subscribeFunction opts fnDef binding env →
        (resolveAfterWait binding env).SubscriptionArn = some x ∧ x ≠ r) ∧
      (∀ x, (resolveAfterWait binding env).SubscriptionArn = some x → x ≠ "" →
        Action.setSubscriptionAttributes x "DeliveryPolicy"
          (jsonHealthyRetryPolicy dp) ∈ subscribeFunction opts fnDef binding env)) ∧
    (isPendingConfirmationArn r = false → r ≠ "" →
      Action.delay 10000 ∉ subscribeFunction opts fnDef binding env ∧
      Action.setSubscriptionAttributes r "DeliveryPolicy"
        (jsonHealthyRetryPolicy dp) ∈ subscribeFunction opts fnDef binding env) := by
  constructor
  · intro hpend
    have hne : (r == "") = false := pendingConfirmationArn_ne_empty r hpend
    refine ⟨?_, ?_, ?_⟩
    · simp [subscribeFunction, hnd, hdp, hres, hresp, hne, hpend, jsStr, jsFalsyStr_none, jsFalsyStr_some,
        getSubscriptionInfoTrace]
    · intro x n v hx
      rcases hfind : env.subsAfterWait.find?
          (subMatches (some binding.protocolOrDefault) none env.fnArn) with _ | s
      · simp [subscribeFunction, hnd, hdp, hres, hresp, hne, hpend, jsStr, jsFalsyStr_none, jsFalsyStr_some,
          getSubscriptionInfoTrace, resolveAfterWait, getSubscriptionInfo, hfind,
          setSubscriptionAttributesOp] at hx
      · by_cases hemp : s.SubscriptionArn = ""
        · simp [subscribeFunction, hnd, hdp, hres, hresp, hne, hpend, jsStr, jsFalsyStr_none, jsFalsyStr_some,
            getSubscriptionInfoTrace, resolveAfterWait, getSubscriptionInfo, hfind,
            setSubscriptionAttributesOp, hemp] at hx
        · simp [subscribeFunction, hnd, hdp, hres, hresp, hne, hpend, jsStr, jsFalsyStr_none, jsFalsyStr_some,
            getSubscriptionInfoTrace, resolveAfterWait, getSubscriptionInfo, hfind,
            setSubscriptionAttributesOp, hemp] at hx
          obtain ⟨hx1, -, -⟩ := hx
          subst hx1
          refine ⟨by simp [resolveAfterWait, getSubscriptionInfo, hfind], ?_⟩
          intro hxr
          have hpend' := pendingArn_of_pendingConfirmationArn r hpend
          have hnotp := subMatches_not_pending _ _ _ s (List.find?_some hfind)
          rw [hxr, hpend'] at hnotp
          exact Bool.noConfusion hnotp
    · intro x hx hxne
      rcases hfind : env.subsAfterWait.find?
          (subMatches (some binding.protocolOrDefault) none env.fnArn) with _ | s
      · simp [resolveAfterWait, getSubscriptionInfo, hfind] at hx
      · simp [resolveAfterWait, getSubscriptionInfo, hfind] at hx
        subst hx
        simp [subscribeFunction, hnd, hdp, hres, hresp, hne, hpend, jsStr, jsFalsyStr_none, jsFalsyStr_some,
          getSubscriptionInfoTrace, resolveAfterWait, getSubscriptionInfo, hfind,
          setSubscriptionAttributesOp, hxne]
  · intro hnp hne0
    have hne : (r == "") = false := by simpa using hne0
    constructor
    · simp [subscribeFunction, hnd, hdp, hres, hresp, hne, hnp, jsStr, jsFalsyStr_none, jsFalsyStr_some,
        getSubscriptionInfoTrace, setSubscriptionAttributesOp]
    · simp [subscribeFunction, hnd, hdp, hres, hresp, hne, hnp, jsStr, jsFalsyStr_none, jsFalsyStr_some,
        getSubscriptionInfoTrace, setSubscriptionAttributesOp]

theorem c2_witness :
    Action.delay 10000 ∈ subscribeFunction ⟨false⟩ ⟨"notify"⟩
      (TopicBinding.obj (some "orders") none (some "pol"))
      ⟨none, "arn:fn", [], some "Pending Confirmation",
        [Subscription.mk "arn:real" "lambda" "arn:fn"]⟩ ∧
    Action.setSubscriptionAttributes "arn:real" "DeliveryPolicy"
      (jsonHealthyRetryPolicy "pol") ∈ subscribeFunction ⟨false⟩ ⟨"notify"⟩
      (TopicBinding.obj (some "orders") none (some "pol"))
      ⟨none, "arn:fn", [], some "Pending Confirmation",
        [Subscription.mk "arn:real" "lambda" "arn:fn"]⟩ :=
  ⟨((c2_pending_confirmation_policy ⟨false⟩ ⟨"notify"⟩
      (TopicBinding.obj (some "orders") none (some "pol"))
      ⟨none, "arn:fn", [], some "Pending Confirmation",
        [Subscription.mk "arn:real" "lambda" "arn:fn"]⟩
      "pol" "Pending Confirmation" rfl rfl rfl rfl).1 (by decide)).1,
   ((c2_pending_confirmation_policy ⟨false⟩ ⟨"notify"⟩
      (TopicBinding.obj (some "orders") none (some "pol"))
      ⟨none, "arn:fn", [], some "Pending Confirmation",
        [Subscription.mk "arn:real" "lambda" "arn:fn"]⟩
      "pol" "Pending Confirmation" rfl rfl rfl rfl).1 (by decide)).2.2
      "arn:real" rfl (by decide)⟩

end ExternalSNS
